import Mathlib

/-
Verification of the version-compatibility core of the k8s API access layer
(pkg/k8s/api.go) together with its orchestration functions CheckVersion,
NamespaceExists and GetVersionInfo.

The orchestration code (CheckVersion, NamespaceExists response handling,
GetVersionInfo response handling, the minApiVersion constant) is embedded
directly from pkg/k8s/api.go.  The parsing and comparison helpers
getK8sVersion and isCompatibleVersion are called from api.go but their
definitions live outside the provided sources, so they are modelled from
the specification (marked below).
-/

namespace K8s

/-- An ordered triple of non-negative integers `(major, minor, patch)`;
the Go source represents it as `[3]int`. -/
structure VersionTriple where
  major : Nat
  minor : Nat
  patch : Nat
deriving DecidableEq, Repr

/-- Typed parse failures of the version parser, distinguishing a missing
major digit sequence from a present-but-invalid major segment. -/
inductive ParseError where
  | Empty : ParseError
  | InvalidMajor : ParseError
deriving DecidableEq, Repr

/-- Embeds `var minApiVersion = [3]int{1, 8, 0}` from pkg/k8s/api.go line 18. -/
def minApiVersion : VersionTriple := ⟨1, 8, 0⟩

/-- Modelled from the spec: the parser "strips an optional leading non-digit
marker character (e.g. `v`)".  A leading digit is kept. -/
def stripLeadingMarker (s : String) : String :=
  match s.data with
  | [] => ""
  | c :: rest => if c.isDigit then String.mk (c :: rest) else String.mk rest

/-- Splits a character list at the first `.`: the characters before it, and
`some` remainder after it when a `.` occurs, `none` otherwise. -/
def breakDot : List Char → List Char × Option (List Char)
  | [] => ([], none)
  | c :: cs =>
    if c = '.' then ([], some cs)
    else
      let p := breakDot cs
      (c :: p.1, p.2)

/-- Splits a character list on `.` into at most `n + 1` segments; the last
segment absorbs any remaining characters, dots included. -/
def splitDotN : Nat → List Char → List (List Char)
  | 0, cs => [cs]
  | Nat.succ k, cs =>
    match breakDot cs with
    | (seg, none) => [seg]
    | (seg, some rest) => seg :: splitDotN k rest

/-- Modelled from the spec: the parser "splits the remainder on `.` into at
most three segments" after stripping the optional leading marker. -/
def segments (s : String) : List String :=
  (splitDotN 2 (stripLeadingMarker s).data).map String.mk

/-- The major segment of a version string: the first dot-separated segment
after stripping the optional leading marker. -/
def majorSegment (s : String) : String :=
  (segments s).headD ""

/-- The minor segment of a version string, `""` when the string has fewer
than two dot-separated segments. -/
def minorSegment (s : String) : String :=
  ((segments s).drop 1).headD ""

/-- The patch segment of a version string, `""` when the string has fewer
than three dot-separated segments. -/
def patchSegment (s : String) : String :=
  ((segments s).drop 2).headD ""

/-- Numeric value of a list of decimal digit characters, most significant
first. -/
def digitsToNatAux (acc : Nat) : List Char → Nat
  | [] => acc
  | c :: cs => digitsToNatAux (acc * 10 + (c.toNat - '0'.toNat)) cs

/-- Numeric value of a string of decimal digits. -/
def digitsToNat (s : String) : Nat :=
  digitsToNatAux 0 s.data

/-- Whether every character of the string is a decimal digit.  A pure
non-negative integer segment is a non-empty string satisfying this. -/
def allDigits (s : String) : Bool :=
  s.data.all Char.isDigit

/-- Modelled from the spec: for minor and patch segments the parser
"extracts the leading run of digits and discards any trailing non-digit
suffix"; "if no leading digits exist, treat as 0".  An absent segment is
passed in as `""` and therefore also yields 0. -/
def leadingNat (s : String) : Nat :=
  digitsToNat (String.mk (s.data.takeWhile Char.isDigit))

/-- Modelled from the spec: `getK8sVersion` (called from CheckVersion in
pkg/k8s/api.go but defined outside the provided sources) parses a raw
version string into a triple.  It strips an optional leading non-digit
marker, splits on `.` into at most three segments, requires the major
segment to be a pure non-negative integer (`ParseError.Empty` when the
major segment is structurally absent, `ParseError.InvalidMajor` when it is
present but not a pure integer), and takes the leading digit run of the
minor and patch segments, defaulting absent or digit-free segments to 0. -/
def getK8sVersion (s : String) : Except ParseError VersionTriple :=
  if majorSegment s = "" then Except.error ParseError.Empty
  else if allDigits (majorSegment s) then
    Except.ok ⟨digitsToNat (majorSegment s),
               leadingNat (minorSegment s), leadingNat (patchSegment s)⟩
  else Except.error ParseError.InvalidMajor

/-- Modelled from the spec: `isCompatibleVersion` (called from CheckVersion
in pkg/k8s/api.go but defined outside the provided sources) "returns true
if `actual >= minimum` under standard triple lexicographic comparison:
compare major first; if equal compare minor; if equal compare patch". -/
def isCompatibleVersion (minVersion actual : VersionTriple) : Bool :=
  if actual.major ≠ minVersion.major then decide (actual.major > minVersion.major)
  else if actual.minor ≠ minVersion.minor then decide (actual.minor > minVersion.minor)
  else decide (actual.patch ≥ minVersion.patch)

/-- The spec-side ordering: `a >= m` under standard lexicographic ordering
on (major, minor, patch) — major compared first, then minor on ties, then
patch. -/
def tripleLexGe (a m : VersionTriple) : Prop :=
  a.major > m.major ∨
    (a.major = m.major ∧
      (a.minor > m.minor ∨ (a.minor = m.minor ∧ a.patch ≥ m.patch)))

instance (a m : VersionTriple) : Decidable (tripleLexGe a m) := by
  unfold tripleLexGe; infer_instance

/-- Errors CheckVersion can return: a parse error propagated unchanged, or
the formatted incompatibility message. -/
inductive CheckVersionError where
  | parseFailure : ParseError → CheckVersionError
  | message : String → CheckVersionError
deriving DecidableEq, Repr

/-- Renders a triple as `major.minor.patch`, as the `%d.%d.%d` verbs in the
CheckVersion error format do. -/
def tripleText (v : VersionTriple) : String :=
  Nat.repr v.major ++ "." ++ Nat.repr v.minor ++ "." ++ Nat.repr v.patch

/-- Embeds the error format string of CheckVersion (pkg/k8s/api.go lines
76-78): it names the actual detected triple first and the minimum required
triple second. -/
def checkVersionMessage (actual minimum : VersionTriple) : String :=
  "Kubernetes is on version [" ++ tripleText actual ++
    "], but version [" ++ tripleText minimum ++ "] or more recent is required"

/-- Embeds CheckVersion from pkg/k8s/api.go lines 69-82: parse the server
version string, propagate a parse error unchanged, otherwise compare with
minApiVersion and build the incompatibility message on failure.  `none`
models the `nil` error return. -/
def CheckVersion (versionString : String) : Option CheckVersionError :=
  match getK8sVersion versionString with
  | Except.error e => some (CheckVersionError.parseFailure e)
  | Except.ok apiVersion =>
    if isCompatibleVersion minApiVersion apiVersion then none
    else some (CheckVersionError.message (checkVersionMessage apiVersion minApiVersion))

/-- Embeds the `Unexpected Kubernetes API response: %s` error format used
by NamespaceExists and GetVersionInfo in pkg/k8s/api.go. -/
def unexpectedResponse (status : String) : String :=
  "Unexpected Kubernetes API response: " ++ status

/-- Embeds the response handling of NamespaceExists (pkg/k8s/api.go lines
104-108): any status other than 200 and 404 is an error; otherwise the
boolean is `status == 200`.  `statusText` is the response's status line. -/
def NamespaceExists (statusCode : Nat) (statusText : String) : Bool × Option String :=
  if statusCode ≠ 200 ∧ statusCode ≠ 404 then
    (false, some (unexpectedResponse statusText))
  else
    (statusCode == 200, none)

/-- The decoded version-info payload; only its serialized form matters
here, so the JSON-decoded value is kept abstract as the decoder's output. -/
structure VersionInfo where
  gitVersion : String
deriving DecidableEq, Repr

/-- Embeds the response handling of GetVersionInfo (pkg/k8s/api.go lines
55-66): a non-200 status returns an error before the body is read; only on
200 is the body read and decoded.  The body read and the JSON decoder are
passed in, so the non-200 branch provably never consults them. -/
def GetVersionInfo (decode : String → Except String VersionInfo)
    (statusCode : Nat) (statusText : String) (body : String) :
    Except String VersionInfo :=
  if statusCode ≠ 200 then Except.error (unexpectedResponse statusText)
  else decode body

end K8s
namespace K8s

/-- C1: `isCompatibleVersion minimum actual` returns true if and only if
`actual >= minimum` under standard lexicographic ordering on
(major, minor, patch); in particular equal triples are compatible,
(1,8,0) vs (1,7,9) is not, and (1,8,0) vs (2,0,0) is. -/
theorem isCompatibleVersion_iff_lexGe :
    (∀ minVersion actual : VersionTriple,
      isCompatibleVersion minVersion actual = true ↔ tripleLexGe actual minVersion) ∧
    isCompatibleVersion ⟨1, 8, 0⟩ ⟨1, 8, 0⟩ = true ∧
    isCompatibleVersion ⟨1, 8, 0⟩ ⟨1, 7, 9⟩ = false ∧
    isCompatibleVersion ⟨1, 8, 0⟩ ⟨2, 0, 0⟩ = true := by
  refine ⟨?_, by decide, by decide, by decide⟩
  intro m a
  unfold isCompatibleVersion tripleLexGe
  split_ifs with h1 h2 <;> simp <;> omega

/-- C2: when the major segment is present (non-empty) but is not a pure
non-negative integer, the parser fails with `ParseError.InvalidMajor`
rather than defaulting the major component. -/
theorem getK8sVersion_invalidMajor (s : String)
    (h1 : majorSegment s ≠ "") (h2 : allDigits (majorSegment s) = false) :
    getK8sVersion s = Except.error ParseError.InvalidMajor := by
  unfold getK8sVersion
  rw [if_neg h1, h2]
  simp

/-- Closes C2 at the concrete input "vX.1.0". -/
theorem getK8sVersion_invalidMajor_witness :
    majorSegment "vX.1.0" ≠ "" ∧
    getK8sVersion "vX.1.0" = Except.error ParseError.InvalidMajor :=
  ⟨by decide, getK8sVersion_invalidMajor "vX.1.0" (by decide) (by rfl)⟩

/-- C3: when the major segment is a valid pure integer, the parser succeeds
with the major value, the leading digit run of the minor segment and the
leading digit run of the patch segment; absent or digit-free minor/patch
segments contribute 0 (an absent segment is the empty string, whose leading
digit run is empty). -/
theorem getK8sVersion_tolerant (s : String)
    (h1 : majorSegment s ≠ "") (h2 : allDigits (majorSegment s) = true) :
    getK8sVersion s =
      Except.ok ⟨digitsToNat (majorSegment s),
                 leadingNat (minorSegment s), leadingNat (patchSegment s)⟩ := by
  unfold getK8sVersion
  rw [if_neg h1, h2]
  simp

/-- Closes C3 at the concrete inputs "v1.9.2-gke.0", "1.10" and
"v2.0+build123". -/
theorem getK8sVersion_tolerant_witness :
    getK8sVersion "v1.9.2-gke.0" = Except.ok ⟨1, 9, 2⟩ ∧
    getK8sVersion "1.10" = Except.ok ⟨1, 10, 0⟩ ∧
    getK8sVersion "v2.0+build123" = Except.ok ⟨2, 0, 0⟩ :=
  ⟨(getK8sVersion_tolerant "v1.9.2-gke.0" (by decide) (by rfl)).trans (by rfl),
   by rfl, by rfl⟩

/-- C4: the parser fails with `ParseError.Empty` exactly when the input has
no extractable major segment (the major segment is structurally empty),
and in particular on the empty string. -/
theorem getK8sVersion_empty_iff :
    (∀ s : String,
      getK8sVersion s = Except.error ParseError.Empty ↔ majorSegment s = "") ∧
    getK8sVersion "" = Except.error ParseError.Empty := by
  refine ⟨?_, by rfl⟩
  intro s
  unfold getK8sVersion
  split_ifs with h1 h2 <;> simp [h1]

end K8s
namespace K8s

/-- C5: CheckVersion returns no error exactly when the parsed server
version is compatible with the minimum; a parse error is propagated
unchanged; an incompatible version yields the formatted message built from
both the actual detected triple and the minimum required triple. -/
theorem checkVersion_spec (s : String) :
    (CheckVersion s = none ↔
      ∃ v, getK8sVersion s = Except.ok v ∧ isCompatibleVersion minApiVersion v = true) ∧
    (∀ e, getK8sVersion s = Except.error e →
      CheckVersion s = some (CheckVersionError.parseFailure e)) ∧
    (∀ v, getK8sVersion s = Except.ok v → isCompatibleVersion minApiVersion v = false →
      CheckVersion s = some (CheckVersionError.message (checkVersionMessage v minApiVersion))) := by
  unfold CheckVersion
  cases h : getK8sVersion s with
  | error e => simp [h]
  | ok v =>
    by_cases hc : isCompatibleVersion minApiVersion v = true
    · simp [h, hc]
    · simp [h, hc]

/-- Closes C5 at the concrete version string "v1.7.9", which parses but is
below the minimum. -/
theorem checkVersion_spec_witness :
    CheckVersion "v1.7.9" =
      some (CheckVersionError.message (checkVersionMessage ⟨1, 7, 9⟩ minApiVersion)) :=
  (checkVersion_spec "v1.7.9").2.2 ⟨1, 7, 9⟩ (by rfl) (by rfl)

/-- C6: the minimum-version threshold used by the compatibility check is
the fixed constant triple (1, 8, 0). -/
theorem minApiVersion_eq : minApiVersion = ⟨1, 8, 0⟩ := rfl

/-- C7: the compatibility verdict obtained through parsing
"v1.8.0-custom" equals the verdict on the clean triple (1,8,0): parse
tolerance does not change the comparison outcome for otherwise-equal
versions. -/
theorem parse_tolerance_preserves_verdict :
    getK8sVersion "v1.8.0-custom" = Except.ok ⟨1, 8, 0⟩ ∧
    (getK8sVersion "v1.8.0-custom").map (isCompatibleVersion ⟨1, 8, 0⟩) =
      Except.ok (isCompatibleVersion ⟨1, 8, 0⟩ ⟨1, 8, 0⟩) :=
  ⟨rfl, rfl⟩

/-- C8: getK8sVersion and isCompatibleVersion are deterministic pure
functions of their arguments alone: equal inputs always yield equal
outputs. -/
theorem parse_compare_deterministic :
    (∀ s t : String, s = t → getK8sVersion s = getK8sVersion t) ∧
    (∀ m a m2 a2 : VersionTriple, m = m2 → a = a2 →
      isCompatibleVersion m a = isCompatibleVersion m2 a2) :=
  ⟨fun _ _ h => h ▸ rfl, fun _ _ _ _ h1 h2 => h1 ▸ h2 ▸ rfl⟩

/-- Closes C8 at a concrete repeated invocation. -/
theorem parse_compare_deterministic_witness :
    getK8sVersion "v1.8.0" = getK8sVersion "v1.8.0" :=
  parse_compare_deterministic.1 "v1.8.0" "v1.8.0" rfl

/-- C9: NamespaceExists reports (true, nil) exactly on a 200 response,
(false, nil) exactly on a 404 response, and (false, error) on every other
status: a 404 is non-existence, not an error. -/
theorem namespaceExists_status (code : Nat) (txt : String) :
    (NamespaceExists code txt = (true, none) ↔ code = 200) ∧
    (NamespaceExists code txt = (false, none) ↔ code = 404) ∧
    (code ≠ 200 → code ≠ 404 →
      NamespaceExists code txt = (false, some (unexpectedResponse txt))) := by
  unfold NamespaceExists
  by_cases h1 : code = 200
  · subst h1; simp
  · by_cases h2 : code = 404
    · subst h2; simp
    · simp [h1, h2]

/-- Closes C9 at the concrete status 500. -/
theorem namespaceExists_status_witness :
    (500 : Nat) ≠ 200 ∧
    NamespaceExists 500 "500 Internal Server Error" =
      (false, some (unexpectedResponse "500 Internal Server Error")) :=
  ⟨by decide,
   (namespaceExists_status 500 "500 Internal Server Error").2.2 (by decide) (by decide)⟩

/-- C10: on any non-200 status GetVersionInfo returns an error built only
from the status line, independently of the response body and of the JSON
decoder — the body is neither read nor decoded. -/
theorem getVersionInfo_non200 (decode : String → Except String VersionInfo)
    (code : Nat) (txt : String) (b1 b2 : String) (h : code ≠ 200) :
    GetVersionInfo decode code txt b1 = Except.error (unexpectedResponse txt) ∧
    GetVersionInfo decode code txt b1 = GetVersionInfo decode code txt b2 := by
  unfold GetVersionInfo
  rw [if_pos h, if_pos h]
  exact ⟨rfl, rfl⟩

/-- Closes C10 at the concrete status 403 with a decoder that would fail on
any body. -/
theorem getVersionInfo_non200_witness :
    (403 : Nat) ≠ 200 ∧
    GetVersionInfo (fun b => Except.error b) 403 "403 Forbidden" "a" =
      Except.error (unexpectedResponse "403 Forbidden") :=
  ⟨by decide,
   (getVersionInfo_non200 (fun b => Except.error b) 403 "403 Forbidden" "a" "b" (by decide)).1⟩

end K8s
